import Mathlib

/-!
# Verification of the realearn clip playback scheduling engine

Shallow embedding of `src/main/src/domain/clip/clip_source.rs` (transport
state machine, block renderer state evolution, fade calculator) and
`src/clip-engine/src/supplier/recorder.rs` (recorder state machine).

Modelling conventions:
- `PositionInSeconds`, `DurationInSeconds`, `Bpm`, `Hz` (all `f64` newtypes in
  the source) are modelled as `ℚ`, so all arithmetic is exact.  The
  `DurationInSeconds ≥ 0` type invariant is carried as explicit hypotheses
  (`StopInstruction.wf`) where a theorem depends on it.
- `FadeCalculator` works on machine integers in the source (`u64` fields,
  `i64` position); it is modelled with `ℕ` fields and an `ℤ` position.
  `u64` subtraction only occurs where the source has already established
  that it cannot underflow, matching truncated `ℕ` subtraction.
- The `f64 as u32` saturating cast is `rustCastU32`; `f64 %` (for the
  non-negative dividends the source feeds it) is `rustFmod`, with the
  division-by-zero case fixed arbitrarily to `0` (the source would produce
  NaN there; theorems touching it assume a positive clip length).
- Sample buffers are not modelled; the renderer embedding
  `Clip.get_samples_internal` returns the next clip state together with the
  list of short MIDI messages emitted by `silence_midi` (the only MIDI
  messages the wrapper source itself synthesizes).
-/

namespace Realearn

/-- Rust `f64 as u32` cast for a rational value: truncates toward zero and
saturates at the `u32` range (negative values go to 0). -/
def rustCastU32 (q : ℚ) : ℕ :=
  if q < 0 then 0 else min ⌊q⌋.toNat (2 ^ 32 - 1)

/-- Truncation toward zero of a rational, as in Rust `f64` to integer casts
and the `%` operator. -/
def ratTrunc (q : ℚ) : ℤ :=
  if q < 0 then -⌊-q⌋ else ⌊q⌋

/-- Rust `f64 %` (remainder with the sign of the dividend).  For a zero
divisor the source would produce NaN; we fix that case to `0`. -/
def rustFmod (p m : ℚ) : ℚ :=
  if m = 0 then 0 else p - m * ratTrunc (p / m)

/-- `PlayInfo` from `clip_source.rs`: the single piece of mutable position
state carried across blocks. -/
structure PlayInfo where
  next_block_pos : ℚ
  deriving DecidableEq

/-- `Repetition` from `clip_source.rs` (`Times` carries a `u32`). -/
inductive Repetition where
  | infinitely
  | times (n : ℕ)
  deriving DecidableEq

/-- `Repetition::from_bool`. -/
def Repetition.from_bool (repeated : Bool) : Repetition :=
  if repeated then .infinitely else .times 1

/-- `StopInstruction` from `clip_source.rs`.  `inDur` is the source's
`In(DurationInSeconds)` variant (`In` is unavailable as a Lean name). -/
inductive StopInstruction where
  | inDur (countdown : ℚ)
  | atEndOfCycle (n : ℕ)
  deriving DecidableEq

/-- The `DurationInSeconds` type invariant of the payload of
`StopInstruction::In`: durations are non-negative by construction. -/
def StopInstruction.wf : StopInstruction → Prop
  | .inDur countdown => 0 ≤ countdown
  | .atEndOfCycle _ => True

/-- `Repetition::to_stop_instruction`. -/
def Repetition.to_stop_instruction : Repetition → Option StopInstruction
  | .infinitely => none
  | .times n => some (.atEndOfCycle (max n 1 - 1))

/-- `StopInstruction::count_down_by`. -/
def StopInstruction.count_down_by (si : StopInstruction) (duration : ℚ) :
    StopInstruction :=
  match si with
  | .inDur countdown =>
    let next_countdown := countdown - duration
    if next_countdown < 0 then .inDur 0 else .inDur next_countdown
  | .atEndOfCycle n => .atEndOfCycle n

/-- `SuspensionReason` from `clip_source.rs`. -/
inductive SuspensionReason where
  | retrigger
  | pause
  | stop
  | playWhileSuspending (next_block_pos : ℚ)
  deriving DecidableEq

/-- `ClipState` from `clip_source.rs`. -/
inductive ClipState where
  | stopped
  | scheduledOrPlaying (play_info : PlayInfo)
      (stop_instruction : Option StopInstruction)
  | suspending (reason : SuspensionReason) (play_info : PlayInfo)
      (transition_countdown : ℚ)
  | paused (next_block_pos : ℚ)
  deriving DecidableEq

/-- `ClipState::play_info`. -/
def ClipState.play_info : ClipState → Option PlayInfo
  | .stopped => none
  | .paused _ => none
  | .scheduledOrPlaying pi _ => some pi
  | .suspending _ pi _ => some pi

/-- `MIN_TEMPO_FACTOR` constant. -/
def MIN_TEMPO_FACTOR : ℚ := 1 / 4

/-- `InnerSource::original_tempo` (hard-coded 96 bpm in the source). -/
def original_tempo : ℚ := 96

/-- `start_end_fade_length()` (0.01 s). -/
def start_end_fade_length : ℚ := 1 / 100

/-- `repetition_fade_length()` (0.01 s). -/
def repetition_fade_length : ℚ := 1 / 100

/-- The clip wrapper source `ClipPcmSource`.  The inner REAPER source is
reduced to the data the embedded operations consult: its length
(`native_clip_length`, i.e. `inner.source.get_length().unwrap_or_default()`)
and whether it holds MIDI material (`inner.is_midi`).  `debug_counter` and
`project` play no role in any embedded operation and are omitted. -/
structure Clip where
  native_length : ℚ
  is_midi : Bool
  repetition : Repetition
  manual_tempo_factor : ℚ
  state : ClipState
  deriving DecidableEq

/-- `ClipPcmSource::calc_final_tempo_factor`. -/
def Clip.calc_final_tempo_factor (c : Clip) (timeline_tempo : ℚ) : ℚ :=
  let timeline_tempo_factor := timeline_tempo / original_tempo
  max (c.manual_tempo_factor * timeline_tempo_factor) MIN_TEMPO_FACTOR

/-- `ClipPcmSource::clip_length` (tempo-adjusted effective length). -/
def Clip.clip_length (c : Clip) (timeline_tempo : ℚ) : ℚ :=
  c.native_length / c.calc_final_tempo_factor timeline_tempo

/-- `CursorInfo`: play info plus current timeline cursor position. -/
structure CursorInfo where
  timeline_cursor_pos : ℚ
  play_info : PlayInfo
  deriving DecidableEq

/-- `CursorInfo::has_started_already` (`next_block_pos >= 0`). -/
def CursorInfo.has_started_already (i : CursorInfo) : Prop :=
  0 ≤ i.play_info.next_block_pos

instance (i : CursorInfo) : Decidable i.has_started_already :=
  inferInstanceAs (Decidable (0 ≤ i.play_info.next_block_pos))

/-- `CursorAndLengthInfo` (derived per block, never stored). -/
structure CursorAndLengthInfo where
  cursor_info : CursorInfo
  clip_length : ℚ
  repetition : Repetition
  deriving DecidableEq

/-- `CursorAndLengthInfo::current_hypothetical_cycle_index`
(`(next_block_pos / clip_length) as u32`). -/
def CursorAndLengthInfo.current_hypothetical_cycle_index
    (i : CursorAndLengthInfo) : ℕ :=
  rustCastU32 (i.cursor_info.play_info.next_block_pos / i.clip_length)

/-- `CursorAndLengthInfo::resolve_stop_instruction`. -/
def CursorAndLengthInfo.resolve_stop_instruction (i : CursorAndLengthInfo) :
    StopInstruction → ℚ
  | .inDur countdown => countdown
  | .atEndOfCycle n =>
    let requested_end_pos := i.clip_length * (n + 1)
    let duration := requested_end_pos - i.cursor_info.play_info.next_block_pos
    if duration < 0 then 0 else duration

/-- `CursorAndLengthInfo::effective_stop_countdown`: minimum of the resolved
natural end-of-repeats stop and the resolved scheduled stop. -/
def CursorAndLengthInfo.effective_stop_countdown (i : CursorAndLengthInfo)
    (scheduled_stop : Option StopInstruction) : Option ℚ :=
  let natural_stop := i.repetition.to_stop_instruction
  (([natural_stop, scheduled_stop].filterMap id).map
    i.resolve_stop_instruction).min?

/-- `ClipPcmSource::create_cursor_and_length_info_at`. -/
def Clip.create_cursor_and_length_info_at (c : Clip) (play_info : PlayInfo)
    (timeline_cursor_pos timeline_tempo : ℚ) : CursorAndLengthInfo :=
  { cursor_info := { timeline_cursor_pos, play_info }
    clip_length := c.clip_length timeline_tempo
    repetition := c.repetition }

/-- `ClipPcmSource::schedule_start_internal`. -/
def Clip.schedule_start_internal (c : Clip)
    (timeline_cursor_pos start_pos : ℚ) (repeated : Bool) : Clip :=
  { c with
    repetition := .from_bool repeated
    state := .scheduledOrPlaying ⟨timeline_cursor_pos - start_pos⟩ none }

/-- `ClipPcmSource::start_internal`. -/
def Clip.start_internal (c : Clip) (timeline_cursor_pos start_pos : ℚ)
    (repeated : Bool) : Clip :=
  match c.state with
  | .stopped =>
    c.schedule_start_internal timeline_cursor_pos start_pos repeated
  | .scheduledOrPlaying play_info stop_instruction =>
    match stop_instruction with
    | some _ =>
      { c with state := .scheduledOrPlaying play_info none }
    | none =>
      if 0 ≤ play_info.next_block_pos then
        { c with
          state := .suspending .retrigger play_info start_end_fade_length }
      else
        c.schedule_start_internal timeline_cursor_pos start_pos repeated
  | .suspending _ play_info transition_countdown =>
    { c with
      repetition := .from_bool repeated
      state := .suspending
        (.playWhileSuspending (timeline_cursor_pos - start_pos))
        play_info transition_countdown }
  | .paused next_block_pos =>
    { c with state := .scheduledOrPlaying ⟨next_block_pos⟩ none }

/-- `ClipPcmSource::schedule_start` (delegates to `start_internal`). -/
def Clip.schedule_start (c : Clip) (timeline_cursor_pos pos : ℚ)
    (repeated : Bool) : Clip :=
  c.start_internal timeline_cursor_pos pos repeated

/-- `ClipPcmSource::start_immediately`. -/
def Clip.start_immediately (c : Clip) (timeline_cursor_pos : ℚ)
    (repeated : Bool) : Clip :=
  c.start_internal timeline_cursor_pos timeline_cursor_pos repeated

/-- `ClipPcmSourceSkills::pause` for `ClipPcmSource`. -/
def Clip.pause (c : Clip) (timeline_cursor_pos : ℚ) : Clip :=
  match c.state with
  | .stopped => c
  | .paused _ => c
  | .scheduledOrPlaying play_info _ =>
    if 0 ≤ play_info.next_block_pos then
      { c with state := .suspending .pause play_info start_end_fade_length }
    else
      c
  | .suspending reason play_info transition_countdown =>
    if reason ≠ .pause then
      { c with state := .suspending .pause play_info transition_countdown }
    else
      c

/-- `ClipPcmSourceSkills::stop_immediately` for `ClipPcmSource`. -/
def Clip.stop_immediately (c : Clip) (timeline_cursor_pos : ℚ) : Clip :=
  match c.state with
  | .stopped => c
  | .scheduledOrPlaying play_info stop_instruction =>
    match stop_instruction with
    | some _ =>
      { c with state := .suspending .stop play_info start_end_fade_length }
    | none =>
      if 0 ≤ play_info.next_block_pos then
        { c with state := .suspending .stop play_info start_end_fade_length }
      else
        { c with state := .stopped }
  | .suspending reason play_info transition_countdown =>
    if reason ≠ .stop then
      { c with state := .suspending .stop play_info transition_countdown }
    else
      c
  | .paused _ => { c with state := .stopped }

/-- `ClipPcmSourceSkills::set_repeated` for `ClipPcmSource`. -/
def Clip.set_repeated (c : Clip) (timeline_cursor_pos timeline_tempo : ℚ)
    (repeated : Bool) : Clip :=
  { c with
    repetition :=
      if repeated then .infinitely
      else
        let times :=
          match c.state.play_info with
          | some play_info =>
            (c.create_cursor_and_length_info_at play_info timeline_cursor_pos
              timeline_tempo).current_hypothetical_cycle_index + 1
          | none => 1
        .times times }

/-- `ClipPcmSourceSkills::pos_within_clip` for `ClipPcmSource`. -/
def Clip.pos_within_clip (c : Clip)
    (timeline_cursor_pos timeline_tempo : ℚ) : Option ℚ :=
  match c.state with
  | .stopped => none
  | .scheduledOrPlaying play_info _ =>
    ((c.create_cursor_and_length_info_at play_info timeline_cursor_pos
      timeline_tempo).cursor_info.play_info.next_block_pos : ℚ)
  | .suspending _ play_info _ =>
    ((c.create_cursor_and_length_info_at play_info timeline_cursor_pos
      timeline_tempo).cursor_info.play_info.next_block_pos : ℚ)
  | .paused next_block_pos => some next_block_pos

/-- `UnitValue::new_clamped` (clamps into the unit interval). -/
def unit_value_new_clamped (q : ℚ) : ℚ :=
  min (max q 0) 1

/-- `calculate_proportional_position` (free function in `clip_source.rs`).
`UnitValue::MIN` is 0. -/
def calculate_proportional_position (position : Option ℚ) (length : ℚ) :
    Option ℚ :=
  if length = 0 then some 0
  else position.map fun p => unit_value_new_clamped (p / length)

/-- `ClipPcmSourceSkills::proportional_pos_within_clip` for
`ClipPcmSource`. -/
def Clip.proportional_pos_within_clip (c : Clip)
    (timeline_cursor_pos timeline_tempo : ℚ) : Option ℚ :=
  calculate_proportional_position
    (c.pos_within_clip timeline_cursor_pos timeline_tempo)
    (c.clip_length timeline_tempo)

/-- A short MIDI control-change message
(`RawShortMessage::control_change(channel, controller, value)`). -/
structure ShortMsg where
  channel : ℕ
  controller : ℕ
  value : ℕ
  deriving DecidableEq

/-- `controller_numbers::ALL_SOUND_OFF`. -/
def ALL_SOUND_OFF : ℕ := 120

/-- `controller_numbers::ALL_NOTES_OFF`. -/
def ALL_NOTES_OFF : ℕ := 123

/-- Messages added by the `for ch in 0..n` loop of `silence_midi`, in
emission order (all-notes-off then all-sound-off per channel). -/
def silence_msgs : ℕ → List ShortMsg
  | 0 => []
  | n + 1 =>
    silence_msgs n ++ [⟨n, ALL_NOTES_OFF, 0⟩, ⟨n, ALL_SOUND_OFF, 0⟩]

/-- `silence_midi` (free function in `clip_source.rs`): panic messages for
all 16 channels. -/
def silence_midi : List ShortMsg := silence_msgs 16

/-- `ClipPcmSource::get_suspension_follow_up_state`.  The source receives
the timeline cursor position and tempo as well but uses neither. -/
def get_suspension_follow_up_state (reason : SuspensionReason)
    (play_info : PlayInfo) : ClipState :=
  match reason with
  | .retrigger => .scheduledOrPlaying ⟨0⟩ none
  | .pause =>
    .paused
      (if play_info.next_block_pos < 0 then 0 else play_info.next_block_pos)
  | .stop => .stopped
  | .playWhileSuspending next_block_pos =>
    .scheduledOrPlaying ⟨next_block_pos⟩ none

/-- The part of a render block (`GetSamplesArgs`/`PcmSourceTransfer`) that
the state evolution of `get_samples_internal` consults: frame count and
sample rate. -/
structure RenderBlock where
  length : ℕ
  sample_rate : ℚ
  deriving DecidableEq

/-- `BlockInfo::duration` (`length as f64 / sample_rate`). -/
def RenderBlock.duration (b : RenderBlock) : ℚ :=
  (b.length : ℚ) / b.sample_rate

/-- State evolution of `ClipPcmSource::get_samples_internal`, together with
the short MIDI messages the wrapper itself synthesizes in that block (the
`silence_midi` panic; MIDI events pulled from the inner source are not
modelled).  Sample-buffer writes (`fill_samples`) mutate no clip state. -/
def Clip.get_samples_internal (c : Clip) (block : RenderBlock)
    (timeline_cursor_pos timeline_tempo : ℚ) : Clip × List ShortMsg :=
  let final_tempo_factor := c.calc_final_tempo_factor timeline_tempo
  match c.state with
  | .stopped => (c, [])
  | .paused _ => (c, [])
  | .suspending reason play_info transition_countdown =>
    if c.is_midi then
      ({ c with state := get_suspension_follow_up_state reason play_info },
        silence_midi)
    else
      let next_transition_countdown := transition_countdown - block.duration
      let next_state :=
        if 0 < next_transition_countdown then
          ClipState.suspending reason play_info next_transition_countdown
        else
          get_suspension_follow_up_state reason play_info
      ({ c with state := next_state }, [])
  | .scheduledOrPlaying play_info stop_instruction =>
    let info := c.create_cursor_and_length_info_at play_info
      timeline_cursor_pos timeline_tempo
    let stop_countdown := info.effective_stop_countdown stop_instruction
    let block_end_pos :=
      let p := play_info.next_block_pos + block.duration * final_tempo_factor
      if p < 0 then p else rustFmod p info.clip_length
    let next_play_info : PlayInfo := ⟨block_end_pos⟩
    let next_state :=
      match stop_countdown with
      | some cd =>
        if 0 < cd - block.duration then
          ClipState.scheduledOrPlaying next_play_info
            (stop_instruction.map fun si => si.count_down_by block.duration)
        else
          ClipState.stopped
      | none => ClipState.scheduledOrPlaying next_play_info none
    ({ c with state := next_state }, [])

/-- `FadeCalculator` from `clip_source.rs` (all fields `u64` in the
source). -/
structure FadeCalculator where
  end_pos : ℕ
  clip_length : ℕ
  clip_cursor_offset : ℕ
  start_end_fade_length : ℕ
  intermediate_fade_length : ℕ
  deriving DecidableEq

/-- The `(current_pos as i64 + clip_cursor_offset as i64)
.rem_euclid(clip_length as i64) as u64` computation inside
`calculate_fade_factor`.  `Int.emod` with a positive divisor is Rust
`rem_euclid`; the source would panic on a zero clip length. -/
def FadeCalculator.current_pos_within_clip (fc : FadeCalculator) (p : ℕ) :
    ℕ :=
  (((p : ℤ) + (fc.clip_cursor_offset : ℤ)).emod (fc.clip_length : ℤ)).toNat

/-- `FadeCalculator::calculate_fade_factor`. -/
def FadeCalculator.calculate_fade_factor (fc : FadeCalculator)
    (current_pos : ℤ) : ℚ :=
  if current_pos < 0 then 0
  else
    let p : ℕ := current_pos.toNat
    if fc.end_pos ≤ p then 0
    else if p < fc.start_end_fade_length then
      (p : ℚ) / (fc.start_end_fade_length : ℚ)
    else if fc.end_pos - p < fc.start_end_fade_length then
      ((fc.end_pos - p : ℕ) : ℚ) / (fc.start_end_fade_length : ℚ)
    else
      let m := fc.current_pos_within_clip p
      if fc.clip_length - m < fc.intermediate_fade_length then
        ((fc.clip_length - m : ℕ) : ℚ) / (fc.intermediate_fade_length : ℚ)
      else if m < fc.intermediate_fade_length then
        (m : ℚ) / (fc.intermediate_fade_length : ℚ)
      else 1

/-- Stated from the spec's words (for claim C3): a position "at least
`start_end_fade_length` away from both clip edges and loop boundaries"
(and inside the playing range). -/
def FadeCalculator.stated_full_gain_zone (fc : FadeCalculator) (n : ℕ) :
    Prop :=
  n < fc.end_pos ∧
  fc.start_end_fade_length ≤ n ∧
  fc.start_end_fade_length ≤ fc.end_pos - n ∧
  fc.start_end_fade_length ≤ fc.current_pos_within_clip n ∧
  fc.start_end_fade_length ≤ fc.clip_length - fc.current_pos_within_clip n

instance (fc : FadeCalculator) (n : ℕ) :
    Decidable (fc.stated_full_gain_zone n) :=
  inferInstanceAs (Decidable (_ ∧ _ ∧ _ ∧ _ ∧ _))

/-- The zone in which the code actually returns gain 1: at least
`start_end_fade_length` away from the clip edges and at least
`intermediate_fade_length` away from the loop boundaries. -/
def FadeCalculator.full_gain_zone (fc : FadeCalculator) (n : ℕ) : Prop :=
  n < fc.end_pos ∧
  fc.start_end_fade_length ≤ n ∧
  fc.start_end_fade_length ≤ fc.end_pos - n ∧
  fc.intermediate_fade_length ≤ fc.current_pos_within_clip n ∧
  fc.intermediate_fade_length ≤ fc.clip_length - fc.current_pos_within_clip n

instance (fc : FadeCalculator) (n : ℕ) : Decidable (fc.full_gain_zone n) :=
  inferInstanceAs (Decidable (_ ∧ _ ∧ _ ∧ _ ∧ _))

/-- Recorder sub-state while recording (`RecordingSubState` in
`recorder.rs`).  `σ` stands for owned PCM sources; `α` bundles the audio
recording state (`sink`, `temporary_audio_buffer`,
`next_record_start_frame`), which `commit_recording` and
`rollback_recording` treat as an opaque whole. -/
inductive RecordingSubState (σ α : Type) where
  | audio (s : α)
  | midi (new_source : σ)
  deriving DecidableEq

/-- `RecordingState` from `recorder.rs`.  `π` stands for projects. -/
structure RecordingState (σ α π : Type) where
  sub_state : RecordingSubState σ α
  old_source : Option σ
  project : Option π
  deriving DecidableEq

/-- The recorder's `State` enum (`Ready`/`Recording`).  The `Option` that
the Rust struct wraps around it exists only for the move-out-and-back
(`take`/restore) pattern inside each method and is always `Some` at the
interface, so it is not modelled. -/
inductive RecorderState (σ α π : Type) where
  | ready (source : σ)
  | recording (s : RecordingState σ α π)
  deriving DecidableEq

/-- Modelled from the spec: `SourceData::from_source` is defined outside
the provided sources; per the spec it packages the newly captured source
(with its project) for the caller.  Only its inputs matter to the claims. -/
structure SourceData (σ π : Type) where
  source : σ
  project : Option π
  deriving DecidableEq

/-- `Recorder::commit_recording`: result and next state. -/
def commit_recording {σ α π : Type} (state : RecorderState σ α π) :
    Except String (SourceData σ π) × RecorderState σ α π :=
  match state with
  | .ready s => (.error "not recording", .ready s)
  | .recording s =>
    match s.sub_state with
    | .audio ss =>
      (.error "TODO implement",
        .recording ⟨.audio ss, s.old_source, s.project⟩)
    | .midi ss => (.ok ⟨ss, s.project⟩, .ready ss)

/-- `Recorder::rollback_recording`: result and next state. -/
def rollback_recording {σ α π : Type} (state : RecorderState σ α π) :
    Except String Unit × RecorderState σ α π :=
  match state with
  | .ready s => (.ok (), .ready s)
  | .recording s =>
    match s.old_source with
    | some old_source => (.ok (), .ready old_source)
    | none => (.error "nothing to roll back to", .recording s)

/-- Example clip playing in its third cycle (concrete input for witnesses):
MIDI material, effective length 4 s at 96 bpm, position 9 s. -/
def exPlayingClip : Clip :=
  { native_length := 4
    is_midi := true
    repetition := .infinitely
    manual_tempo_factor := 1
    state := .scheduledOrPlaying ⟨9⟩ none }

/-- Example stopped clip (concrete input for witnesses). -/
def exStoppedClip : Clip :=
  { native_length := 4
    is_midi := false
    repetition := .times 1
    manual_tempo_factor := 1
    state := .stopped }

/-- Example clip still in count-in, `next_block_pos = -1` (concrete input
for witnesses). -/
def exCountInClip : Clip :=
  { native_length := 4
    is_midi := false
    repetition := .infinitely
    manual_tempo_factor := 1
    state := .scheduledOrPlaying ⟨-1⟩ none }

/-- Example clip whose inner source has zero length (concrete input for
witnesses). -/
def exZeroLenClip : Clip :=
  { native_length := 0
    is_midi := false
    repetition := .times 1
    manual_tempo_factor := 1
    state := .stopped }

/-- Example cursor-and-length info: position 2 s inside a 4 s clip played
twice (concrete input for witnesses). -/
def exInfo : CursorAndLengthInfo :=
  { cursor_info := { timeline_cursor_pos := 0, play_info := ⟨2⟩ }
    clip_length := 4
    repetition := .times 2 }

/-- Example fade calculator whose intermediate fade window is longer than
its start/end fade window (concrete input for witnesses and the C3
counterexample). -/
def exFade : FadeCalculator :=
  { end_pos := 1000
    clip_length := 10
    clip_cursor_offset := 0
    start_end_fade_length := 1
    intermediate_fade_length := 5 }

/-- Example render block (concrete input for witnesses). -/
def exBlock : RenderBlock :=
  { length := 128, sample_rate := 48000 }

/-- Claim C1: for every timeline cursor position, start position and
repeated flag, `schedule_start` on a clip in state `Stopped` puts it into
`ScheduledOrPlaying` with `next_block_pos = cursor_pos - start_pos` and no
stop instruction. -/
theorem schedule_start_stopped_spec (c : Clip) (cursor_pos start_pos : ℚ)
    (repeated : Bool) (h : c.state = .stopped) :
    (c.schedule_start cursor_pos start_pos repeated).state =
      .scheduledOrPlaying ⟨cursor_pos - start_pos⟩ none := by
  simp [Clip.schedule_start, Clip.start_internal, h,
    Clip.schedule_start_internal]

/-- Witness for C1 at a concrete stopped clip. -/
theorem schedule_start_stopped_spec_witness :
    exStoppedClip.state = .stopped ∧
    (exStoppedClip.schedule_start 10 7 true).state =
      .scheduledOrPlaying ⟨10 - 7⟩ none :=
  ⟨rfl, schedule_start_stopped_spec exStoppedClip 10 7 true rfl⟩

/-- Claim C2: `resolve_stop_instruction` never returns a negative duration
(given the `DurationInSeconds` invariant on an `In` payload), and the
effective stop countdown is the minimum of the resolved natural
end-of-repeats stop (when repetition is finite) and the resolved scheduled
stop (when present); if neither exists there is no countdown. -/
theorem stop_countdown_spec (i : CursorAndLengthInfo)
    (si : StopInstruction) (scheduled_stop : Option StopInstruction)
    (hwf : si.wf) :
    0 ≤ i.resolve_stop_instruction si ∧
    i.effective_stop_countdown scheduled_stop =
      (match i.repetition.to_stop_instruction, scheduled_stop with
       | none, none => none
       | some n, none => some (i.resolve_stop_instruction n)
       | none, some s => some (i.resolve_stop_instruction s)
       | some n, some s =>
         some (min (i.resolve_stop_instruction n)
           (i.resolve_stop_instruction s))) := by
  constructor
  · cases si with
    | inDur countdown => exact hwf
    | atEndOfCycle n =>
      dsimp only [CursorAndLengthInfo.resolve_stop_instruction]
      split_ifs with hd
      · exact le_refl 0
      · linarith
  · cases hn : i.repetition.to_stop_instruction <;>
      cases scheduled_stop <;>
        simp [CursorAndLengthInfo.effective_stop_countdown, hn,
          List.filterMap, List.min?]

/-- Witness for C2 at a concrete info record and stop instruction. -/
theorem stop_countdown_spec_witness :
    StopInstruction.wf (.inDur 3) ∧
    (0 ≤ exInfo.resolve_stop_instruction (.inDur 3) ∧
     exInfo.effective_stop_countdown (some (.inDur 3)) =
       some (min (exInfo.resolve_stop_instruction (.atEndOfCycle 1))
         (exInfo.resolve_stop_instruction (.inDur 3)))) :=
  ⟨by norm_num [StopInstruction.wf],
    stop_countdown_spec exInfo (.inDur 3) (some (.inDur 3))
      (by norm_num [StopInstruction.wf])⟩

/-- Counterexample for C3 as stated: at a configuration whose intermediate
fade window (5) is longer than its start/end fade window (1), position 13
is at least `start_end_fade_length` away from both clip edges and from the
loop boundaries, yet the fade factor is 3/5, not 1. -/
theorem fade_factor_claim_counterexample :
    FadeCalculator.stated_full_gain_zone exFade 13 ∧
    FadeCalculator.calculate_fade_factor exFade 13 ≠ 1 := by
  refine ⟨by decide, ?_⟩
  have h : FadeCalculator.calculate_fade_factor exFade 13 = 3 / 5 := by
    have h13 : Int.toNat 13 = 13 := by simp
    have h3 : Int.toNat 3 = 3 := by simp
    norm_num [FadeCalculator.calculate_fade_factor,
      FadeCalculator.current_pos_within_clip, exFade]
    rw [h13, h3]
    norm_num
  rw [h]
  norm_num

/-- Claim C3 (amended): `calculate_fade_factor` returns 0 for every
position < 0 and for every position ≥ `end_pos`; given a positive clip
length it returns 1 for every position at least `start_end_fade_length`
away from the clip edges and at least `intermediate_fade_length` away from
the loop boundaries; and within `start_end_fade_length` of a clip edge the
edge fade-in/fade-out ratio is returned regardless of loop boundaries. -/
theorem fade_factor_spec (fc : FadeCalculator) (p : ℤ)
    (hcl : 0 < fc.clip_length) :
    (p < 0 → fc.calculate_fade_factor p = 0) ∧
    ((fc.end_pos : ℤ) ≤ p → fc.calculate_fade_factor p = 0) ∧
    (0 ≤ p → fc.full_gain_zone p.toNat → fc.calculate_fade_factor p = 1) ∧
    (0 ≤ p → p.toNat < fc.end_pos → p.toNat < fc.start_end_fade_length →
      fc.calculate_fade_factor p =
        (p.toNat : ℚ) / (fc.start_end_fade_length : ℚ)) ∧
    (0 ≤ p → p.toNat < fc.end_pos → fc.start_end_fade_length ≤ p.toNat →
      fc.end_pos - p.toNat < fc.start_end_fade_length →
      fc.calculate_fade_factor p =
        ((fc.end_pos - p.toNat : ℕ) : ℚ) /
          (fc.start_end_fade_length : ℚ)) := by
  refine ⟨?_, ?_, ?_, ?_, ?_⟩
  · intro hp
    simp [FadeCalculator.calculate_fade_factor, hp]
  · intro hp
    simp only [FadeCalculator.calculate_fade_factor]
    split_ifs <;> first | rfl | omega
  · rintro hp ⟨h1, h2, h3, h4, h5⟩
    simp only [FadeCalculator.calculate_fade_factor]
    split_ifs <;> first | rfl | omega
  · intro hp h1 h2
    simp only [FadeCalculator.calculate_fade_factor]
    split_ifs <;> first | rfl | omega
  · intro hp h1 h2 h3
    simp only [FadeCalculator.calculate_fade_factor]
    split_ifs <;> first | rfl | omega

/-- Witness for C3 (amended) at a concrete configuration and position. -/
theorem fade_factor_spec_witness :
    0 < exFade.clip_length ∧ (0 : ℤ) ≤ 15 ∧
    FadeCalculator.full_gain_zone exFade (Int.toNat 15) ∧
    FadeCalculator.calculate_fade_factor exFade 15 = 1 :=
  ⟨by decide, by decide, by decide,
    (fade_factor_spec exFade 15 (by decide)).2.2.1 (by decide) (by decide)⟩

/-- Helper for C4: `stop_immediately` leaves a clip unchanged once its
state is `Stopped` or `Suspending` with reason `Stop`. -/
theorem stop_immediately_fixed_of_settled (c : Clip) (p : ℚ)
    (h : c.state = .stopped ∨
      ∃ pi cd, c.state = .suspending .stop pi cd) :
    c.stop_immediately p = c := by
  rcases h with h | ⟨pi, cd, h⟩ <;>
    simp [Clip.stop_immediately, h]

/-- Claim C4: once a first `stop_immediately` has moved the state to
`Suspending{Stop}` or `Stopped`, a second `stop_immediately` with any
timeline cursor position leaves the clip exactly unchanged. -/
theorem stop_immediately_idempotent (c : Clip) (p₁ p₂ : ℚ)
    (h : (c.stop_immediately p₁).state = .stopped ∨
      ∃ pi cd, (c.stop_immediately p₁).state = .suspending .stop pi cd) :
    (c.stop_immediately p₁).stop_immediately p₂ = c.stop_immediately p₁ :=
  stop_immediately_fixed_of_settled (c.stop_immediately p₁) p₂ h

/-- Witness for C4 at a concrete playing clip. -/
theorem stop_immediately_idempotent_witness :
    ((exPlayingClip.stop_immediately 0).state = .stopped ∨
      ∃ pi cd, (exPlayingClip.stop_immediately 0).state =
        .suspending .stop pi cd) ∧
    (exPlayingClip.stop_immediately 0).stop_immediately 5 =
      exPlayingClip.stop_immediately 0 := by
  have h : (exPlayingClip.stop_immediately 0).state = .stopped ∨
      ∃ pi cd, (exPlayingClip.stop_immediately 0).state =
        .suspending .stop pi cd :=
    Or.inr ⟨⟨9⟩, start_end_fade_length,
      by norm_num [Clip.stop_immediately, exPlayingClip]⟩
  exact ⟨h, stop_immediately_idempotent exPlayingClip 0 5 h⟩

/-- Claim C9: `pause` is a no-op while the clip is in count-in
(`next_block_pos < 0`), as well as in the `Stopped` and `Paused` states. -/
theorem pause_noop_spec (c : Clip) (cursor : ℚ)
    (h : (∃ pi si, c.state = .scheduledOrPlaying pi si ∧
        pi.next_block_pos < 0) ∨
      c.state = .stopped ∨ ∃ q, c.state = .paused q) :
    c.pause cursor = c := by
  rcases h with ⟨pi, si, hst, hneg⟩ | hst | ⟨q, hst⟩
  · simp [Clip.pause, hst, not_le.mpr hneg]
  · simp [Clip.pause, hst]
  · simp [Clip.pause, hst]

/-- Witness for C9 at a concrete count-in clip. -/
theorem pause_noop_spec_witness :
    exCountInClip.state = .scheduledOrPlaying ⟨-1⟩ none ∧
    exCountInClip.pause 5 = exCountInClip :=
  ⟨rfl, pause_noop_spec exCountInClip 5
    (Or.inl ⟨⟨-1⟩, none, rfl, by norm_num⟩)⟩

/-- Claim C10: whenever the effective clip length is zero,
`proportional_pos_within_clip` returns `Some` of the minimum unit value 0
— even in the `Stopped` state, where `pos_within_clip` returns `None`. -/
theorem proportional_pos_zero_length_spec (c : Clip) (cursor tt : ℚ)
    (hlen : c.clip_length tt = 0) :
    c.proportional_pos_within_clip cursor tt = some 0 ∧
    (c.state = .stopped → c.pos_within_clip cursor tt = none) := by
  constructor
  · simp [Clip.proportional_pos_within_clip,
      calculate_proportional_position, hlen]
  · intro h
    simp [Clip.pos_within_clip, h]

/-- Witness for C10 at a concrete zero-length stopped clip. -/
theorem proportional_pos_zero_length_spec_witness :
    exZeroLenClip.clip_length 96 = 0 ∧
    exZeroLenClip.proportional_pos_within_clip 0 96 = some 0 ∧
    exZeroLenClip.pos_within_clip 0 96 = none := by
  have hlen : exZeroLenClip.clip_length 96 = 0 := by
    norm_num [Clip.clip_length, exZeroLenClip]
  refine ⟨hlen, ?_, ?_⟩
  · exact (proportional_pos_zero_length_spec exZeroLenClip 0 96 hlen).1
  · exact (proportional_pos_zero_length_spec exZeroLenClip 0 96 hlen).2 rfl

/-- Helper: the saturating `f64 as u32` cast agrees with the floor for
non-negative values below the saturation bound. -/
theorem rustCastU32_eq_floor (q : ℚ) (h0 : 0 ≤ q) (hlt : q < 2 ^ 32 - 1) :
    rustCastU32 q = ⌊q⌋.toNat := by
  unfold rustCastU32
  rw [if_neg (not_lt.mpr h0)]
  have hfl : ⌊q⌋ < 2 ^ 32 - 1 := by
    rw [Int.floor_lt]
    push_cast
    linarith
  have hle : ⌊q⌋.toNat ≤ 2 ^ 32 - 1 := by omega
  exact min_eq_left hle

/-- Claim C5: `set_repeated(false)` while the clip state carries play info
sets the repetition to a fixed count of `k + 1` cycles, where `k` is the
current cycle index `⌊next_block_pos / effective clip length⌋`; when the
state carries no play info, the count becomes 1. -/
theorem set_repeated_cycle_spec (c : Clip)
    (timeline_cursor_pos timeline_tempo : ℚ) :
    (∀ pi : PlayInfo, c.state.play_info = some pi →
      0 ≤ pi.next_block_pos →
      0 < c.clip_length timeline_tempo →
      pi.next_block_pos / c.clip_length timeline_tempo < 2 ^ 32 - 1 →
      (c.set_repeated timeline_cursor_pos timeline_tempo false).repetition =
        .times
          (⌊pi.next_block_pos / c.clip_length timeline_tempo⌋.toNat + 1)) ∧
    (c.state.play_info = none →
      (c.set_repeated timeline_cursor_pos timeline_tempo false).repetition =
        .times 1) := by
  constructor
  · intro pi hpi h0 hlen hlt
    simp only [Clip.set_repeated, Bool.false_eq_true, if_false, hpi,
      Clip.create_cursor_and_length_info_at,
      CursorAndLengthInfo.current_hypothetical_cycle_index]
    rw [rustCastU32_eq_floor _ (div_nonneg h0 hlen.le) hlt]
  · intro h
    simp [Clip.set_repeated, h]

/-- Witness for C5 at a concrete clip playing in its third cycle
(position 9 s inside a 4 s clip, so cycle index 2). -/
theorem set_repeated_cycle_spec_witness :
    exPlayingClip.state.play_info = some ⟨9⟩ ∧
    (0 : ℚ) ≤ 9 ∧ 0 < exPlayingClip.clip_length 96 ∧
    (exPlayingClip.set_repeated 0 96 false).repetition = .times 3 := by
  have hlen : exPlayingClip.clip_length 96 = 4 := by
    norm_num [Clip.clip_length, Clip.calc_final_tempo_factor,
      exPlayingClip, original_tempo, MIN_TEMPO_FACTOR]
  refine ⟨rfl, by norm_num, by rw [hlen]; norm_num, ?_⟩
  have h := (set_repeated_cycle_spec exPlayingClip 0 96).1 ⟨9⟩ rfl
    (by norm_num) (by rw [hlen]; norm_num) (by rw [hlen]; norm_num)
  rw [hlen] at h
  have hfl : ⌊(9 : ℚ) / 4⌋ = 2 := by norm_num [Int.floor_eq_iff]
  have h2 : ⌊(9 : ℚ) / 4⌋.toNat + 1 = 3 := by rw [hfl]; simp
  rw [h2] at h
  exact h

/-- Claim C6: `commit_recording` is atomic.  In `Ready` it returns a
recoverable error with the state unchanged; in `Recording` with an audio
sub-state it returns the not-implemented error ("TODO implement") with the
whole recording state (sub-state, old source, project) unchanged; in
`Recording` with a MIDI sub-state it succeeds and the recorder becomes
`Ready` holding the newly captured source. -/
theorem commit_recording_spec (σ α π : Type) (s : σ) (ssa : α) (ssm : σ)
    (old : Option σ) (proj : Option π) :
    commit_recording (.ready s : RecorderState σ α π) =
      (.error "not recording", .ready s) ∧
    commit_recording
        (.recording ⟨.audio ssa, old, proj⟩ : RecorderState σ α π) =
      (.error "TODO implement", .recording ⟨.audio ssa, old, proj⟩) ∧
    commit_recording
        (.recording ⟨.midi ssm, old, proj⟩ : RecorderState σ α π) =
      (.ok ⟨ssm, proj⟩, .ready ssm) :=
  ⟨rfl, rfl, rfl⟩

/-- Counterexample for C7 as stated: `rollback_recording` on a `Ready`
recorder returns `Ok(())`, not an error string. -/
theorem rollback_claim_counterexample :
    rollback_recording (.ready 0 : RecorderState ℕ ℕ ℕ) =
      (.ok (), .ready 0) ∧
    (rollback_recording (.ready 0 : RecorderState ℕ ℕ ℕ)).1.isOk = true :=
  ⟨rfl, rfl⟩

/-- Claim C7 (amended): `rollback_recording` in `Ready` returns `Ok(())`
with the state unchanged; during a recording with no saved old source it
returns the recoverable error "nothing to roll back to" with the state
unchanged; during a recording that saved a pre-recording source it
succeeds and the recorder becomes `Ready` holding that source.  No branch
mutates state on failure. -/
theorem rollback_recording_spec (σ α π : Type) (s : σ)
    (sub : RecordingSubState σ α) (proj : Option π) (old : σ) :
    rollback_recording (.ready s : RecorderState σ α π) =
      (.ok (), .ready s) ∧
    rollback_recording
        (.recording ⟨sub, none, proj⟩ : RecorderState σ α π) =
      (.error "nothing to roll back to", .recording ⟨sub, none, proj⟩) ∧
    rollback_recording
        (.recording ⟨sub, some old, proj⟩ : RecorderState σ α π) =
      (.ok (), .ready old) :=
  ⟨rfl, rfl, rfl⟩

/-- Claim C8: when a playing MIDI clip receives `stop_immediately`, the
state becomes `Suspending{Stop}`, and rendering the next block (whatever
its length and sample rate, i.e. without consuming any fade-out countdown)
emits the `silence_midi` panic — which contains an all-notes-off and an
all-sound-off control change for each of the 16 channels — and transitions
to the follow-up state `Stopped` within that same block. -/
theorem midi_stop_panic_spec (c : Clip) (p₁ : ℚ) (block : RenderBlock)
    (tc tt : ℚ) (pi : PlayInfo) (si : Option StopInstruction)
    (hmidi : c.is_midi = true)
    (hstate : c.state = .scheduledOrPlaying pi si)
    (hplaying : 0 ≤ pi.next_block_pos) :
    (c.stop_immediately p₁).state =
      .suspending .stop pi start_end_fade_length ∧
    ((c.stop_immediately p₁).get_samples_internal block tc tt).1.state =
      .stopped ∧
    ((c.stop_immediately p₁).get_samples_internal block tc tt).2 =
      silence_midi ∧
    ∀ ch : ℕ, ch < 16 →
      (⟨ch, ALL_NOTES_OFF, 0⟩ : ShortMsg) ∈ silence_midi ∧
      (⟨ch, ALL_SOUND_OFF, 0⟩ : ShortMsg) ∈ silence_midi := by
  have hstop : c.stop_immediately p₁ =
      { c with state := .suspending .stop pi start_end_fade_length } := by
    cases si with
    | none => simp [Clip.stop_immediately, hstate, hplaying]
    | some s => simp [Clip.stop_immediately, hstate]
  refine ⟨by rw [hstop], ?_, ?_, ?_⟩
  · rw [hstop]
    simp [Clip.get_samples_internal, hmidi, get_suspension_follow_up_state]
  · rw [hstop]
    simp [Clip.get_samples_internal, hmidi]
  · decide

/-- Witness for C8 at a concrete playing MIDI clip and block. -/
theorem midi_stop_panic_spec_witness :
    exPlayingClip.is_midi = true ∧
    exPlayingClip.state = .scheduledOrPlaying ⟨9⟩ none ∧
    (0 : ℚ) ≤ 9 ∧
    ((exPlayingClip.stop_immediately 0).get_samples_internal exBlock 0
      96).1.state = .stopped :=
  ⟨rfl, rfl, by norm_num,
    (midi_stop_panic_spec exPlayingClip 0 exBlock 0 96 ⟨9⟩ none rfl rfl
      (by norm_num)).2.1⟩

end Realearn
